import Mathlib

/-!
Verification of the TypeScript type-grammar slice of the rslint parser
(crates/rslint_parser/src/syntax/typescript.rs) against its specification.

The grammar productions (`ts_type`, `ts_non_array_type`, `ts_this_predicate`,
`maybe_eat_incorrect_modifier`, `ts_type_ref`, `ts_entity_name`, `ts_type_name`
and `BASE_TS_RECOVERY_SET`) are translated directly from the source file.
The parser infrastructure they use (token cursor, event log, markers,
recovery engine, diagnostics) lives outside the provided sources and is
modelled from the specification's component contracts (spec sections 3, 4.1,
4.5 and 7); each such definition carries a doc comment saying so.

Rust's panicking placeholder macros and the fallibility of the productions are
made explicit: every production returns a `PResult` which is either a normal
return (`ok`, carrying the optional completed node and the next parser state),
an `aborted` process abort (a `todo` or `unimplemented` placeholder, or an
`unwrap` of a missing value), or `timeout`, which signals that the fuel bound
given to a grammar loop was exhausted (used to reason about non-termination).
-/

set_option maxHeartbeats 1000000

/-- Token and node kinds used by this grammar slice, from `SyntaxKind` as used
in the source file. Token kinds come first, then node kinds. `TOMBSTONE` is
the placeholder kind of a not-yet-completed start event. -/
inductive SyntaxKind where
  | EOF
  | IDENT
  | VOID_KW
  | YIELD_KW
  | NULL_KW
  | AWAIT_KW
  | BREAK_KW
  | THIS_KW
  | IMPORT_KW
  | TYPEOF_KW
  | TRUE_KW
  | FALSE_KW
  | NUMBER
  | STRING
  | REGEX
  | BACKTICK
  | MINUS
  | DOT
  | L_CURLY
  | L_BRACK
  | L_PAREN
  | R_PAREN
  | L_ANGLE
  | ERROR
  | TOMBSTONE
  | LITERAL
  | TEMPLATE
  | TS_VOID
  | TS_NULL
  | TS_ANY
  | TS_BOOLEAN
  | TS_BIGINT
  | TS_NEVER
  | TS_NUMBER
  | TS_OBJECT
  | TS_STRING
  | TS_SYMBOL
  | TS_UNKNOWN
  | TS_UNDEFINED
  | TS_LITERAL
  | TS_TEMPLATE
  | TS_THIS
  | TS_PREDICATE
  | TS_PAREN
  | TS_TYPE_REF
  | TS_QUALIFIED_PATH
  | TS_TYPE_NAME
  deriving DecidableEq

/-- The keyword-class token kinds (`SyntaxKind::is_keyword`): the `*_KW`
token kinds of this slice. -/
def SyntaxKind.is_keyword : SyntaxKind → Bool
  | .VOID_KW | .YIELD_KW | .NULL_KW | .AWAIT_KW | .BREAK_KW | .THIS_KW
  | .IMPORT_KW | .TYPEOF_KW | .TRUE_KW | .FALSE_KW => true
  | _ => false

/-- Modelled from the spec: a token carries its kind, raw text slice, source
range and a precomputed line-break-before flag (spec section 3, "Token";
section 6). -/
structure Token where
  kind : SyntaxKind
  text : String
  range_start : Nat
  range_end : Nat
  linebreak_before : Bool
  deriving DecidableEq

/-- Modelled from the spec: a diagnostic is a message plus a primary label
(range and annotation text); a value, never a control-flow signal
(spec section 3, "Diagnostic"). -/
structure Diagnostic where
  message : String
  range_start : Nat
  range_end : Nat
  label : String
  deriving DecidableEq

/-- Modelled from the spec: the event log's entries (spec section 3,
"Event log"). A `start` entry holds the node kind (rewritten on completion;
`TOMBSTONE` while unfinished or abandoned in place) and an optional
forward-parent index written by `precede`. -/
inductive Event where
  | start (kind : SyntaxKind) (forward_parent : Option Nat)
  | finish
  | token (kind : SyntaxKind) (text : String)
  deriving DecidableEq

/-- Marker-lifecycle instrumentation: one entry per `start`, `complete` and
`abandon` call, recording the marker's identity. The spec (section 3,
"Marker") makes never completing/abandoning a marker a programming error the
design must assert against; this log is what that assertion would inspect. -/
inductive MOp where
  | start (id : Nat)
  | complete (id : Nat)
  | abandon (id : Nat)
  deriving DecidableEq

/-- Modelled from the spec: a recovery token-set, an immutable composable set
over token kinds (spec section 3, "TokenSet"); modelled as a list with
membership, mirroring the source's bit-set. -/
abbrev TokenSet := List SyntaxKind

/-- TokenSet membership (`TokenSet::contains`). -/
def ts_contains (s : TokenSet) (k : SyntaxKind) : Bool :=
  s.any (fun x => decide (x = k))

/-- TokenSet union (`TokenSet::union`); set union, not mutation. -/
def ts_union (a b : TokenSet) : TokenSet := a ++ b

/-- Modelled from the spec: the parser state — the token cursor position over
the externally produced finite token stream, the append-only event log, the
diagnostic list, and the marker-lifecycle instrumentation (spec sections 3
and 5). -/
structure Parser where
  tokens : List Token
  pos : Nat
  events : List Event
  errors : List Diagnostic
  marker_ops : List MOp
  next_marker_id : Nat
  deriving DecidableEq

/-- Modelled from the spec: `current_kind`; `EOF` once input is exhausted. -/
def Parser.cur (p : Parser) : SyntaxKind :=
  match p.tokens.get? p.pos with
  | some t => t.kind
  | none => .EOF

/-- Modelled from the spec: `lookahead_kind(n)`. -/
def Parser.nth (p : Parser) (n : Nat) : SyntaxKind :=
  match p.tokens.get? (p.pos + n) with
  | some t => t.kind
  | none => .EOF

/-- Modelled from the spec: `current_text` (`cur_src`); empty at end of input. -/
def Parser.cur_src (p : Parser) : String :=
  match p.tokens.get? p.pos with
  | some t => t.text
  | none => ""

/-- Modelled from the spec: `lookahead_text(n)` (`nth_src`). -/
def Parser.nth_src (p : Parser) (n : Nat) : String :=
  match p.tokens.get? (p.pos + n) with
  | some t => t.text
  | none => ""

/-- Offset just past the last token, used as the range of the end-of-input
position. -/
def Parser.end_offset (p : Parser) : Nat :=
  match p.tokens.getLast? with
  | some t => t.range_end
  | none => 0

/-- Modelled from the spec: the current token with its range (`cur_tok`);
a zero-width end-of-input token once input is exhausted. -/
def Parser.cur_tok (p : Parser) : Token :=
  match p.tokens.get? p.pos with
  | some t => t
  | none => ⟨.EOF, "", p.end_offset, p.end_offset, false⟩

/-- Modelled from the spec: `at(kind)` test on the current token. -/
def Parser.at_kind (p : Parser) (k : SyntaxKind) : Bool :=
  decide (p.cur = k)

/-- `nth_at(n, kind)` test on the n-th lookahead token. -/
def Parser.nth_at (p : Parser) (n : Nat) (k : SyntaxKind) : Bool :=
  decide (p.nth n = k)

/-- Modelled from the spec: `has_line_break_before_n`, from the token's
precomputed line-break flag. -/
def Parser.has_linebreak_before_n (p : Parser) (n : Nat) : Bool :=
  match p.tokens.get? (p.pos + n) with
  | some t => t.linebreak_before
  | none => false

/-- Modelled from the spec: record a diagnostic; never halts parsing
(spec section 3, "Diagnostic"). -/
def Parser.error (p : Parser) (d : Diagnostic) : Parser :=
  { p with errors := p.errors ++ [d] }

/-- Modelled from the spec: `advance` — consume one token, writing a Token
entry to the event log (spec section 4.1). At end of input there is nothing
to consume; modelled as a no-op (the productions never advance there). -/
def Parser.bump_any (p : Parser) : Parser :=
  if p.pos < p.tokens.length then
    { p with
      pos := p.pos + 1,
      events := p.events ++ [.token p.cur p.cur_src] }
  else p

/-- Modelled from the spec: `advance_remap` — consume one token, reclassifying
its kind while preserving its original text (spec section 4.1). -/
def Parser.bump_remap (p : Parser) (k : SyntaxKind) : Parser :=
  if p.pos < p.tokens.length then
    { p with
      pos := p.pos + 1,
      events := p.events ++ [.token k p.cur_src] }
  else p

/-- Modelled from the spec: a Marker is an exclusive handle to an unfinished
StartNode entry (spec section 3): its event-log index, the token position at
which it was opened (for range computation), and its instrumentation id. -/
structure Marker where
  pos : Nat
  tok_pos : Nat
  id : Nat
  deriving DecidableEq

/-- Modelled from the spec: a CompletedMarker is an immutable reference to a
finished node's start position, kind and source range (spec section 3). -/
structure CompletedMarker where
  start_pos : Nat
  kind : SyntaxKind
  range_start : Nat
  range_end : Nat
  deriving DecidableEq

/-- Modelled from the spec: `start` — append a placeholder StartNode to the
event log and hand out the marker for it (spec section 3). -/
def Parser.start (p : Parser) : Marker × Parser :=
  (⟨p.events.length, p.pos, p.next_marker_id⟩,
   { p with
     events := p.events ++ [.start .TOMBSTONE none],
     marker_ops := p.marker_ops ++ [.start p.next_marker_id],
     next_marker_id := p.next_marker_id + 1 })

/-- Modelled from the spec: `complete(kind)` — assign the node kind to the
marker's start entry and append the matching FinishNode (spec section 3). -/
def Marker.complete (m : Marker) (p : Parser) (kind : SyntaxKind) :
    CompletedMarker × Parser :=
  let fp := match p.events.get? m.pos with
    | some (.start _ f) => f
    | _ => none
  let r_start := match p.tokens.get? m.tok_pos with
    | some t => t.range_start
    | none => p.end_offset
  let r_end := match p.tokens.get? (p.pos - 1) with
    | some t => t.range_end
    | none => r_start
  (⟨m.pos, kind, r_start, r_end⟩,
   { p with
     events := (p.events.set m.pos (.start kind fp)) ++ [.finish],
     marker_ops := p.marker_ops ++ [.complete m.id] })

/-- Modelled from the spec: `abandon` — retract the StartNode: popped if it is
the last event, otherwise left in place as a tombstone (spec sections 3
and 9). -/
def Marker.abandon (m : Marker) (p : Parser) : Parser :=
  { p with
    events := if m.pos + 1 = p.events.length then p.events.dropLast else p.events,
    marker_ops := p.marker_ops ++ [.abandon m.id] }

/-- Modelled from the spec: `precede` — open a new StartNode and record it as
the forward parent of this completed node, making the completed node the
first child of the new node (spec section 3). -/
def CompletedMarker.precede (cm : CompletedMarker) (p : Parser) :
    Marker × Parser :=
  let (m, p1) := p.start
  (m,
   { p1 with
     events := match p1.events.get? cm.start_pos with
       | some (.start k _) => p1.events.set cm.start_pos (.start k (some m.pos))
       | _ => p1.events })

/-- Printable name of the token kinds the productions `expect`. -/
def kind_text : SyntaxKind → String
  | .NUMBER => "NUMBER"
  | .THIS_KW => "this"
  | .R_PAREN => ")"
  | _ => "token"

/-- Modelled from the spec: the diagnostic reported by `expect` for an
expected-but-absent token (spec section 7). -/
def expect_err (p : Parser) (k : SyntaxKind) : Diagnostic :=
  ⟨"expected `" ++ kind_text k ++ "` but instead found `" ++ p.cur_src ++ "`",
   p.cur_tok.range_start, p.cur_tok.range_end, ""⟩

/-- Modelled from the spec: `expect(kind)` — consume a matching token, or
report an expected-but-absent-token diagnostic and continue without
consuming (spec section 7). -/
def Parser.expect (p : Parser) (k : SyntaxKind) : Bool × Parser :=
  if p.at_kind k then (true, p.bump_any)
  else (false, p.error (expect_err p k))

/-- Modelled from the spec: the recovery engine (spec section 4.5) — record
the diagnostic; if the current token is already inside the recovery set (and
consuming it was not requested) consume nothing, otherwise advance until a
token in the set or end of input is reached, wrapping the consumed tokens in
an explicit `ERROR` node (at minimum the offending token when the flag
requests it). -/
def Parser.err_recover (p : Parser) (err : Diagnostic) (set : TokenSet)
    (consume_current : Bool) : Parser :=
  let p1 := p.error err
  if ts_contains set p1.cur ∧ consume_current = false then p1
  else
    let skip0 :=
      ((p1.tokens.drop p1.pos).takeWhile (fun t => !(ts_contains set t.kind))).length
    let skip :=
      if consume_current = true ∧ p1.pos < p1.tokens.length ∧ skip0 = 0 then 1
      else skip0
    if skip = 0 then p1
    else
      let (m, p2) := p1.start
      let p3 := (List.range skip).foldl (fun q _ => q.bump_any) p2
      (m.complete p3 .ERROR).2

/-- Outcome of running a production: a normal return (optional node plus next
state), a process abort (a `todo`/`unimplemented` placeholder or a failed
`unwrap`), or exhaustion of the fuel bound given to a grammar loop. -/
inductive PResult where
  | ok (res : Option CompletedMarker) (p : Parser)
  | aborted (msg : String)
  | timeout
  deriving DecidableEq

/-- The optional node of a normal return, if the run returned normally. -/
def PResult.returned : PResult → Option (Option CompletedMarker)
  | .ok r _ => some r
  | _ => none

/-- The final parser state, if the run returned normally. -/
def PResult.state : PResult → Option Parser
  | .ok _ p => some p
  | _ => none

/-- `BASE_TS_RECOVERY_SET` from the source (including its duplicate
`T![ident]` entry). -/
def BASE_TS_RECOVERY_SET : TokenSet :=
  [.VOID_KW, .IDENT, .IDENT, .AWAIT_KW, .NULL_KW, .BREAK_KW, .L_BRACK]

/-- `ts_type` from the source: the body is the `unimplemented!()` placeholder,
which aborts the process with the message "not implemented". -/
def ts_type (_p : Parser) : PResult :=
  .aborted "not implemented"

/-- Modelled from the spec: `literal` from the expression grammar
(src/crates/rslint_parser/src/syntax/expr.rs, not under the provided
sources) — a literal token is consumed into a `LITERAL` node
(spec section 4.2: literal tokens produce a literal wrapper node). -/
def literal (p : Parser) : Option CompletedMarker × Parser :=
  match p.cur with
  | .NUMBER | .STRING | .TRUE_KW | .FALSE_KW | .REGEX | .NULL_KW =>
    let (m, p1) := p.start
    let p2 := p1.bump_any
    let (cm, p3) := m.complete p2 .LITERAL
    (some cm, p3)
  | _ => (none, p)

/-- Modelled from the spec: `template` from the expression grammar (not under
the provided sources) — parses a backtick-delimited template literal into a
`TEMPLATE` node. Interpolated elements are not modelled (no claim depends on
them), so the template is the backtick token and its element list is empty. -/
def template (p : Parser) : CompletedMarker × Parser :=
  let (m, p1) := p.start
  let p2 := p1.bump_any
  m.complete p2 .TEMPLATE

/-- `ts_this_predicate` from the source: open the marker unconditionally,
conditionally consume `asserts` by text, `expect` the `this` token,
conditionally consume `is` by text followed by a recursive `ts_type`;
abandon the marker when nothing was consumed. -/
def ts_this_predicate (p : Parser) : PResult :=
  let (m, p1) := p.start
  let st1 : Bool × Parser :=
    if p1.cur_src = "asserts" then (true, p1.bump_any) else (false, p1)
  let advanced1 := st1.1
  let (ok_this, p2) := st1.2.expect .THIS_KW
  let advanced2 := advanced1 || ok_this
  if p2.cur_src = "is" then
    let p3 := p2.bump_any
    match ts_type p3 with
    | .ok _ p4 =>
      let (cm, p5) := m.complete p4 .TS_PREDICATE
      .ok (some cm) p5
    | r => r
  else
    if advanced2 then
      let (cm, p3) := m.complete p2 .TS_PREDICATE
      .ok (some cm) p3
    else
      .ok none (m.abandon p2)

/-- `maybe_eat_incorrect_modifier` from the source: a `public`, `private`,
`protected` or `readonly` token is consumed into an `ERROR` node. -/
def maybe_eat_incorrect_modifier (p : Parser) : Option CompletedMarker × Parser :=
  if p.cur_src = "public" ∨ p.cur_src = "private" ∨ p.cur_src = "protected" ∨
      p.cur_src = "readonly" then
    let (m, p1) := p.start
    let p2 := p1.bump_any
    let (cm, p3) := m.complete p2 .ERROR
    (some cm, p3)
  else (none, p)

/-- The failure diagnostic of `ts_type_name`, built from the offending
token's text and range as in the source. -/
def type_name_err (p : Parser) : Diagnostic :=
  ⟨"expected a TypeScript type name, but instead found `" ++ p.cur_src ++ "`",
   p.cur_tok.range_start, p.cur_tok.range_end, ""⟩

/-- `ts_type_name` from the source: a plain identifier — or, with
`allow_reserved`, any keyword — is remapped to `T![ident]` inside a
`TS_TYPE_NAME` node; otherwise report and recover with the caller's set or
the default base set. -/
def ts_type_name (p : Parser) (recovery_set : Option TokenSet)
    (allow_reserved : Bool) : Option CompletedMarker × Parser :=
  if p.at_kind .IDENT || (p.cur.is_keyword && allow_reserved) then
    let m := p.start.1
    let p2 := p.start.2.bump_remap .IDENT
    (some (m.complete p2 .TS_TYPE_NAME).1, (m.complete p2 .TS_TYPE_NAME).2)
  else
    (none, p.err_recover (type_name_err p)
      (recovery_set.getD BASE_TS_RECOVERY_SET) false)

/-- The `while p.at(T![.])` loop of `ts_entity_name`, with an explicit fuel
bound: each iteration wraps the previous node via `precede` into a
`TS_QUALIFIED_PATH` node around a nested `ts_type_name`. The loop body never
consumes the `.` token itself. -/
def qualified_path_loop (fuel : Nat) (lhs : CompletedMarker) (set : TokenSet)
    (allow_reserved : Bool) (p : Parser) : PResult :=
  match fuel with
  | 0 => .timeout
  | fuel' + 1 =>
    if p.at_kind .DOT then
      let m := (lhs.precede p).1
      let p1 := (lhs.precede p).2
      let p2 := (ts_type_name p1 (some set) allow_reserved).2
      qualified_path_loop fuel' (m.complete p2 .TS_QUALIFIED_PATH).1 set
        allow_reserved (m.complete p2 .TS_QUALIFIED_PATH).2
    else .ok (some lhs) p

/-- `ts_entity_name` from the source: parse the initial segment with
`ts_type_name` (passing `allow_reserved = false`), then run the qualified
path loop with the recovery set extended by `T![.]`. -/
def ts_entity_name (fuel : Nat) (p : Parser) (recovery_set : Option TokenSet)
    (allow_reserved : Bool) : PResult :=
  match ts_type_name p recovery_set false with
  | (none, p1) => .ok none p1
  | (some init, p1) =>
    let set := ts_union (recovery_set.getD BASE_TS_RECOVERY_SET) [.DOT]
    qualified_path_loop fuel init set allow_reserved p1

/-- `ts_type_ref` from the source: open a marker, report (but keep) an
erroneous access modifier, delegate to `ts_entity_name` — whose `None` is
propagated by `?`, dropping the open marker — then the type-argument
placeholder (`todo!`), then complete as `TS_TYPE_REF`. -/
def ts_type_ref (fuel : Nat) (p : Parser) (recovery_set : Option TokenSet) :
    PResult :=
  let (m, p0) := p.start
  let p1 := match maybe_eat_incorrect_modifier p0 with
    | (some err_m, q) =>
      q.error ⟨"a parameter property is only allowed in a constructor implementation",
        err_m.range_start, err_m.range_end, ""⟩
    | (none, q) => q
  match ts_entity_name fuel p1 recovery_set true with
  | .ok none p2 => .ok none p2
  | .ok (some _) p2 =>
    if ¬ p2.has_linebreak_before_n 0 = true ∧ p2.at_kind .L_ANGLE = true then
      .aborted "not yet implemented: type args"
    else
      let (cm, p3) := m.complete p2 .TS_TYPE_REF
      .ok (some cm) p3
  | r => r

/-- The primitive-type kind selected by `ts_non_array_type` from the current
token's text; `ERROR` is the source's dummy value for a non-primitive text. -/
def ts_primitive_kind : String → SyntaxKind
  | "void" => .TS_VOID
  | "null" => .TS_NULL
  | "any" => .TS_ANY
  | "boolean" => .TS_BOOLEAN
  | "bigint" => .TS_BIGINT
  | "never" => .TS_NEVER
  | "number" => .TS_NUMBER
  | "object" => .TS_OBJECT
  | "string" => .TS_STRING
  | "symbol" => .TS_SYMBOL
  | "unknown" => .TS_UNKNOWN
  | "undefined" => .TS_UNDEFINED
  | _ => .ERROR

/-- The recovery set passed by `ts_non_array_type`'s fallthrough arm: the
base set unioned with the additional type-start kinds listed at the call
site. -/
def ts_non_array_recovery_set : TokenSet :=
  ts_union BASE_TS_RECOVERY_SET
    [.TYPEOF_KW, .L_CURLY, .L_BRACK, .L_PAREN, .THIS_KW, .IMPORT_KW, .MINUS,
     .NUMBER, .STRING, .TRUE_KW, .FALSE_KW, .REGEX, .BACKTICK]

/-- The fallthrough diagnostic of `ts_non_array_type`, with the offending
token's range as its primary label. -/
def expected_type_err (p : Parser) : Diagnostic :=
  ⟨"expected a type", p.cur_tok.range_start, p.cur_tok.range_end, ""⟩

/-- `ts_non_array_type` from the source: the central dispatch over the
current token kind and, for identifier-class tokens, its text. The `import`,
`typeof`, `{` and `[` arms are the source's `todo!` placeholders; the `(` arm
recurses into the unimplemented `ts_type`. -/
def ts_non_array_type (fuel : Nat) (p : Parser) : PResult :=
  match p.cur with
  | .IDENT | .VOID_KW | .YIELD_KW | .NULL_KW | .AWAIT_KW | .BREAK_KW =>
    if p.cur_src = "asserts" ∧ p.nth_at 1 .THIS_KW = true then
      ts_this_predicate p.bump_any
    else
      if ts_primitive_kind p.cur_src ≠ .ERROR ∧ p.nth_at 1 .DOT = false then
        let m := p.start.1
        let p2 := p.start.2.bump_any
        .ok (some (m.complete p2 (ts_primitive_kind p.cur_src)).1)
          (m.complete p2 (ts_primitive_kind p.cur_src)).2
      else
        ts_type_ref fuel p none
  | .NUMBER | .STRING | .TRUE_KW | .FALSE_KW | .REGEX =>
    match literal p with
    | (some cm, p1) =>
      let (m, p2) := cm.precede p1
      let (cm2, p3) := m.complete p2 .TS_LITERAL
      .ok (some cm2) p3
    | (none, _) => .aborted "called Option unwrap on a None value"
  | .BACKTICK =>
    let (cm, p1) := template p
    let (m, p2) := cm.precede p1
    let (cm2, p3) := m.complete p2 .TS_TEMPLATE
    .ok (some cm2) p3
  | .MINUS =>
    let m := p.start.1
    let p2 := p.start.2.bump_any
    if p2.at_kind .NUMBER then
      let m2 := p2.start.1
      let p5 := (m2.complete (p2.start.2.bump_any) .LITERAL).2
      .ok (some (m.complete p5 .TS_LITERAL).1) (m.complete p5 .TS_LITERAL).2
    else
      let p3 := (p2.expect .NUMBER).2
      .ok (some (m.complete p3 .TS_LITERAL).1) (m.complete p3 .TS_LITERAL).2
  | .IMPORT_KW => .aborted "not yet implemented: import type"
  | .THIS_KW =>
    if p.nth_src 1 = "is" then
      ts_this_predicate p
    else
      let (m, p1) := p.start
      let p2 := p1.bump_any
      let (cm, p3) := m.complete p2 .TS_THIS
      .ok (some cm) p3
  | .TYPEOF_KW => .aborted "not yet implemented: type query"
  | .L_CURLY => .aborted "not yet implemented: mapped type or type_lit"
  | .L_BRACK => .aborted "not yet implemented: tuples"
  | .L_PAREN =>
    let (m, p1) := p.start
    let p2 := p1.bump_any
    match ts_type p2 with
    | .ok _ p3 =>
      let (_, p4) := p3.expect .R_PAREN
      let (cm, p5) := m.complete p4 .TS_PAREN
      .ok (some cm) p5
    | r => r
  | _ =>
    .ok none (p.err_recover (expected_type_err p) ts_non_array_recovery_set false)

/-- Number of `complete`/`abandon` entries for a given marker id. -/
def terminal_count (log : List MOp) (id : Nat) : Nat :=
  (log.filter (fun op => match op with
    | .complete j => decide (j = id)
    | .abandon j => decide (j = id)
    | _ => false)).length

/-- Marker discipline over the instrumentation log: every started marker is
consumed by exactly one `complete` or `abandon` (spec section 3). -/
def marker_discipline (log : List MOp) : Bool :=
  log.all (fun op => match op with
    | .start id => decide (terminal_count log id = 1)
    | _ => true)

/-- Fresh parser state over a token stream. -/
def initial_state (toks : List Token) : Parser := ⟨toks, 0, [], [], [], 0⟩

/-- Token stream for the input `yield` (a reserved keyword in type position). -/
def p_yield : Parser := initial_state [⟨.YIELD_KW, "yield", 0, 5, false⟩]

/-- Token stream for the input `import`. -/
def p_import : Parser := initial_state [⟨.IMPORT_KW, "import", 0, 6, false⟩]

/-- Token stream for the input `asserts this is Foo`. -/
def p_asserts : Parser := initial_state
  [⟨.IDENT, "asserts", 0, 7, false⟩, ⟨.THIS_KW, "this", 8, 12, false⟩,
   ⟨.IDENT, "is", 13, 15, false⟩, ⟨.IDENT, "Foo", 16, 19, false⟩]

/-- Token stream for the input `Foo.` (an entity name with a trailing dot). -/
def p_foo_dot : Parser := initial_state
  [⟨.IDENT, "Foo", 0, 3, false⟩, ⟨.DOT, ".", 3, 4, false⟩]

/-- Token stream for the input `Foo.Bar.Baz`. -/
def p_foo_bar_baz : Parser := initial_state
  [⟨.IDENT, "Foo", 0, 3, false⟩, ⟨.DOT, ".", 3, 4, false⟩,
   ⟨.IDENT, "Bar", 4, 7, false⟩, ⟨.DOT, ".", 7, 8, false⟩,
   ⟨.IDENT, "Baz", 8, 11, false⟩]

/-- Token stream for the input `) yield`: a token matching no dispatch branch
of `ts_non_array_type`, followed by a `yield` token. -/
def p_junk_yield : Parser := initial_state
  [⟨.R_PAREN, ")", 0, 1, false⟩, ⟨.YIELD_KW, "yield", 2, 7, false⟩]

/-- Token stream for the input `string`. -/
def p_string : Parser := initial_state [⟨.IDENT, "string", 0, 6, false⟩]

/-- Token stream for the input `-5`. -/
def p_minus5 : Parser := initial_state
  [⟨.MINUS, "-", 0, 1, false⟩, ⟨.NUMBER, "5", 1, 2, false⟩]

/-! State-preservation lemmas for the parser operations: marker bookkeeping
touches only the event and instrumentation logs, never the cursor. -/

@[simp] theorem start_snd_tokens (p : Parser) : p.start.2.tokens = p.tokens := rfl

@[simp] theorem start_snd_pos (p : Parser) : p.start.2.pos = p.pos := rfl

@[simp] theorem start_snd_errors (p : Parser) : p.start.2.errors = p.errors := rfl

@[simp] theorem start_snd_cur (p : Parser) : p.start.2.cur = p.cur := rfl

@[simp] theorem error_tokens (p : Parser) (d : Diagnostic) :
    (p.error d).tokens = p.tokens := rfl

@[simp] theorem error_pos (p : Parser) (d : Diagnostic) :
    (p.error d).pos = p.pos := rfl

@[simp] theorem error_cur (p : Parser) (d : Diagnostic) :
    (p.error d).cur = p.cur := rfl

@[simp] theorem error_errors (p : Parser) (d : Diagnostic) :
    (p.error d).errors = p.errors ++ [d] := rfl

@[simp] theorem complete_snd_tokens (m : Marker) (p : Parser) (k : SyntaxKind) :
    (m.complete p k).2.tokens = p.tokens := rfl

@[simp] theorem complete_snd_pos (m : Marker) (p : Parser) (k : SyntaxKind) :
    (m.complete p k).2.pos = p.pos := rfl

@[simp] theorem complete_snd_errors (m : Marker) (p : Parser) (k : SyntaxKind) :
    (m.complete p k).2.errors = p.errors := rfl

@[simp] theorem complete_snd_cur (m : Marker) (p : Parser) (k : SyntaxKind) :
    (m.complete p k).2.cur = p.cur := rfl

@[simp] theorem complete_fst_kind (m : Marker) (p : Parser) (k : SyntaxKind) :
    (m.complete p k).1.kind = k := rfl

@[simp] theorem precede_snd_tokens (cm : CompletedMarker) (p : Parser) :
    (cm.precede p).2.tokens = p.tokens := rfl

@[simp] theorem precede_snd_pos (cm : CompletedMarker) (p : Parser) :
    (cm.precede p).2.pos = p.pos := rfl

@[simp] theorem precede_snd_errors (cm : CompletedMarker) (p : Parser) :
    (cm.precede p).2.errors = p.errors := rfl

@[simp] theorem precede_snd_cur (cm : CompletedMarker) (p : Parser) :
    (cm.precede p).2.cur = p.cur := rfl

@[simp] theorem bump_any_tokens (p : Parser) : p.bump_any.tokens = p.tokens := by
  unfold Parser.bump_any; split <;> rfl

@[simp] theorem bump_any_errors (p : Parser) : p.bump_any.errors = p.errors := by
  unfold Parser.bump_any; split <;> rfl

theorem bump_any_pos (p : Parser) (h : p.pos < p.tokens.length) :
    p.bump_any.pos = p.pos + 1 := by
  unfold Parser.bump_any; rw [if_pos h]

@[simp] theorem bump_remap_tokens (p : Parser) (k : SyntaxKind) :
    (p.bump_remap k).tokens = p.tokens := by
  unfold Parser.bump_remap; split <;> rfl

@[simp] theorem bump_remap_errors (p : Parser) (k : SyntaxKind) :
    (p.bump_remap k).errors = p.errors := by
  unfold Parser.bump_remap; split <;> rfl

theorem bump_remap_pos (p : Parser) (k : SyntaxKind)
    (h : p.pos < p.tokens.length) : (p.bump_remap k).pos = p.pos + 1 := by
  unfold Parser.bump_remap; rw [if_pos h]

/-- A current token of any kind other than `EOF` guarantees the cursor is
strictly inside the token stream. -/
theorem cur_lt_length (p : Parser) (h : p.cur ≠ .EOF) :
    p.pos < p.tokens.length := by
  by_contra hlt
  have hn : p.tokens.get? p.pos = none :=
    List.get?_eq_none.mpr (Nat.le_of_not_lt hlt)
  exact h (by unfold Parser.cur; rw [hn])

/-- An n-th lookahead token of any kind other than `EOF` bounds the cursor. -/
theorem nth_ne_eof_lt (p : Parser) (n : Nat) (h : p.nth n ≠ .EOF) :
    p.pos + n < p.tokens.length := by
  by_contra hlt
  have hn : p.tokens.get? (p.pos + n) = none :=
    List.get?_eq_none.mpr (Nat.le_of_not_lt hlt)
  exact h (by unfold Parser.nth; rw [hn])

theorem bump_any_cur (p : Parser) (h : p.pos < p.tokens.length) :
    p.bump_any.cur = p.nth 1 := by
  unfold Parser.bump_any
  rw [if_pos h]
  unfold Parser.cur Parser.nth
  rfl

theorem bump_any_cur_src (p : Parser) (h : p.pos < p.tokens.length) :
    p.bump_any.cur_src = p.nth_src 1 := by
  unfold Parser.bump_any
  rw [if_pos h]
  unfold Parser.cur_src Parser.nth_src
  rfl

/-- Recovery with the current token already inside the recovery set (and no
consumption requested) records the diagnostic and consumes nothing. -/
theorem err_recover_in_set (p : Parser) (err : Diagnostic) (set : TokenSet)
    (h : ts_contains set p.cur = true) :
    p.err_recover err set false = p.error err := by
  simp [Parser.err_recover, h]

/-- `ts_type_name` on a token that is neither a plain identifier nor an
allowed reserved word reports and recovers, returning no node. -/
theorem ts_type_name_fail (p : Parser) (rs : Option TokenSet) (ar : Bool)
    (h : (p.at_kind .IDENT || (p.cur.is_keyword && ar)) = false) :
    ts_type_name p rs ar =
      (none, p.err_recover (type_name_err p) (rs.getD BASE_TS_RECOVERY_SET) false) := by
  unfold ts_type_name
  rw [if_neg (by simp [h])]

/-- When a failing `ts_type_name` is handed a recovery set that already
contains the current token, the parser state only gains the diagnostic. -/
theorem ts_type_name_fail_cur (p : Parser) (set : TokenSet) (ar : Bool)
    (hcond : (p.at_kind .IDENT || (p.cur.is_keyword && ar)) = false)
    (hin : ts_contains set p.cur = true) :
    (ts_type_name p (some set) ar).2 = p.error (type_name_err p) := by
  rw [ts_type_name_fail p (some set) ar hcond]
  exact err_recover_in_set p _ set hin

/-- The qualified-path loop of `ts_entity_name` never consumes the `.` token:
when the recovery set handed to the nested `ts_type_name` contains `.` (as it
always does — the set is unioned with `T![.]`), a loop iteration entered at a
`.` leaves the cursor at that same `.`, so no amount of fuel reaches the exit
test with a different token: the loop diverges. -/
theorem qualified_path_loop_stuck (set : TokenSet)
    (hset : ts_contains set .DOT = true) :
    ∀ (fuel : Nat) (lhs : CompletedMarker) (ar : Bool) (p : Parser),
      p.cur = .DOT → qualified_path_loop fuel lhs set ar p = .timeout := by
  intro fuel
  induction fuel with
  | zero => intro lhs ar p _; rfl
  | succ n ih =>
    intro lhs ar p hc
    have hat : p.at_kind .DOT = true := by
      simp [Parser.at_kind, hc]
    have hp1c : (lhs.precede p).2.cur = .DOT := by
      rw [precede_snd_cur]; exact hc
    have hcond : ((lhs.precede p).2.at_kind .IDENT ||
        ((lhs.precede p).2.cur.is_keyword && ar)) = false := by
      simp [Parser.at_kind, hp1c, SyntaxKind.is_keyword]
    have hstate := ts_type_name_fail_cur (lhs.precede p).2 set ar hcond
      (by rw [hp1c]; exact hset)
    have hp3c : (((lhs.precede p).1.complete
        ((ts_type_name (lhs.precede p).2 (some set) ar).2)
          .TS_QUALIFIED_PATH).2).cur = .DOT := by
      rw [complete_snd_cur, hstate, error_cur]; exact hp1c
    simp only [qualified_path_loop]
    rw [if_pos hat]
    exact ih _ ar _ hp3c

/-- When the initial segment parses, `ts_entity_name` is the qualified-path
loop over the extended recovery set. -/
theorem ts_entity_name_eq_loop (fuel : Nat) (p : Parser) (rs : Option TokenSet)
    (ar : Bool) (cm : CompletedMarker) (q : Parser)
    (h : ts_type_name p rs false = (some cm, q)) :
    ts_entity_name fuel p rs ar =
      qualified_path_loop fuel cm
        (ts_union (rs.getD BASE_TS_RECOVERY_SET) [.DOT]) ar q := by
  unfold ts_entity_name
  rw [h]

/-- C1: the marker-discipline claim fails on the code. On the single-token
input `yield`, `ts_non_array_type` dispatches to `ts_type_ref`, which opens
its marker and then propagates the `None` of the nested `ts_entity_name`
with `?`, returning no node while its own marker is neither completed nor
abandoned: the final instrumentation log contains a `start` with no matching
terminal operation, violating `marker_discipline`. -/
theorem claim_C1_type_ref_marker_unmatched :
    (ts_non_array_type 10 p_yield).returned = some none ∧
    (ts_non_array_type 10 p_yield).state.map
      (fun q => marker_discipline q.marker_ops) = some false :=
  ⟨by decide, by decide⟩

/-- C2: the totality claim fails on the code. On the finite token stream
`Foo .`, the qualified-path loop of `ts_entity_name` is entered at the `.`
and never consumes it — the loop body never advances past the dot (the
nested `ts_type_name` fails there and recovers against a set containing `.`,
consuming nothing) — so the run exhausts every fuel bound: the source's
`while p.at(T![.])` loop runs forever. -/
theorem claim_C2_entity_name_diverges (fuel : Nat) :
    ts_entity_name fuel p_foo_dot none true = PResult.timeout := by
  obtain ⟨cm, q, h⟩ : ∃ cm q, ts_type_name p_foo_dot none false = (some cm, q) :=
    ⟨_, _, rfl⟩
  rw [ts_entity_name_eq_loop fuel _ _ _ _ _ h]
  refine qualified_path_loop_stuck _ (by decide) fuel cm true q ?_
  have hq : q = (ts_type_name p_foo_dot none false).2 := by rw [h]
  rw [hq]
  decide

/-- C2 witness: the divergence theorem instantiated at a concrete fuel
bound. -/
theorem claim_C2_witness :
    ts_entity_name 5 p_foo_dot none true = PResult.timeout :=
  claim_C2_entity_name_diverges 5

/-- C3: the `Foo.Bar.Baz` scenario fails on the code. After the initial
segment `Foo`, the loop is entered at the first `.` and never consumes it,
so `ts_entity_name` never reaches `Bar`: instead of the claimed
left-associative `TS_QUALIFIED_PATH` with zero diagnostics, the run exhausts
every fuel bound (the source loops forever, accumulating
"expected a TypeScript type name, but instead found `.`" diagnostics). -/
theorem claim_C3_foo_bar_baz_diverges (fuel : Nat) :
    ts_entity_name fuel p_foo_bar_baz none true = PResult.timeout := by
  obtain ⟨cm, q, h⟩ : ∃ cm q, ts_type_name p_foo_bar_baz none false = (some cm, q) :=
    ⟨_, _, rfl⟩
  rw [ts_entity_name_eq_loop fuel _ _ _ _ _ h]
  refine qualified_path_loop_stuck _ (by decide) fuel cm true q ?_
  have hq : q = (ts_type_name p_foo_bar_baz none false).2 := by rw [h]
  rw [hq]
  decide

/-- C3 witness: the divergence theorem instantiated at a concrete fuel
bound. -/
theorem claim_C3_witness :
    ts_entity_name 9 p_foo_bar_baz none true = PResult.timeout :=
  claim_C3_foo_bar_baz_diverges 9

/-- C4: the never-abort claim fails on the code. `ts_type` is the
`unimplemented!()` placeholder and aborts on every input, and the `import`
dispatch arm of `ts_non_array_type` is the placeholder `todo!("import type")`
(likewise `typeof`, `{` and `[`), so these token-kind branches halt the
process instead of returning a node or no node. -/
theorem claim_C4_placeholders_abort :
    ts_non_array_type 10 p_import = .aborted "not yet implemented: import type" ∧
    (∀ q : Parser, ts_type q = .aborted "not implemented") :=
  ⟨rfl, fun _ => rfl⟩

/-- C4 witness: the abort facts at concrete inputs. -/
theorem claim_C4_witness :
    ts_type (initial_state []) = .aborted "not implemented" :=
  claim_C4_placeholders_abort.2 (initial_state [])

/-- C5: the `asserts this is Foo` scenario fails on the code. The dispatch
consumes `asserts`, `ts_this_predicate` consumes `this` and `is`, and then
recurses into `ts_type` — the `unimplemented!()` placeholder — so the run
aborts instead of producing a `TS_PREDICATE` node with zero diagnostics.
(The `asserts` token is also consumed by the dispatch before
`ts_this_predicate` opens its marker, not inside it as claimed.) -/
theorem claim_C5_asserts_this_aborts :
    ts_non_array_type 10 p_asserts = .aborted "not implemented" := by
  decide

/-- The token kinds handled by a dispatch arm of `ts_non_array_type`. -/
def dispatch_kinds : TokenSet :=
  [.IDENT, .VOID_KW, .YIELD_KW, .NULL_KW, .AWAIT_KW, .BREAK_KW,
   .NUMBER, .STRING, .TRUE_KW, .FALSE_KW, .REGEX, .BACKTICK, .MINUS,
   .IMPORT_KW, .THIS_KW, .TYPEOF_KW, .L_CURLY, .L_BRACK, .L_PAREN]

/-- C6 counterexample: the claimed recovery set does not hold — the set the
fallthrough arm passes to recovery omits `T![yield]`, a kind handled by the
dispatch. On the input `) yield`, recovery therefore skips past the `yield`
token (consuming it inside the error node, final cursor 2) instead of
stopping in front of it as a set containing `yield` would force. -/
theorem claim_C6_yield_not_in_recovery_set :
    ts_contains ts_non_array_recovery_set .YIELD_KW = false ∧
    (ts_non_array_type 10 p_junk_yield).returned = some none ∧
    (ts_non_array_type 10 p_junk_yield).state.map Parser.pos = some 2 :=
  ⟨by decide, by decide, by decide⟩

/-- C6 (amended): for every parser state whose current token matches no
dispatch branch of `ts_non_array_type`, the production reports the
"expected a type" diagnostic with the offending token's range as primary
label and invokes recovery — without requesting consumption of the current
token — with the union of the base recovery set and the listed type-start
kinds, which covers every dispatch-handled kind except `T![yield]`; it
returns no node. -/
theorem claim_C6_fallthrough_recovers (fuel : Nat) (p : Parser)
    (h : ts_contains dispatch_kinds p.cur = false) :
    ts_non_array_type fuel p = .ok none
      (p.err_recover (expected_type_err p) ts_non_array_recovery_set false) := by
  cases hc : p.cur <;>
    first
    | (rw [hc] at h; exact absurd h (by decide))
    | (simp only [ts_non_array_type, hc])

/-- C6 witness: the amended fallthrough theorem applied at the concrete
input `) yield`. -/
theorem claim_C6_fallthrough_witness :
    ts_contains dispatch_kinds p_junk_yield.cur = false ∧
    ts_non_array_type 10 p_junk_yield = .ok none
      (p_junk_yield.err_recover (expected_type_err p_junk_yield)
        ts_non_array_recovery_set false) :=
  ⟨by decide, claim_C6_fallthrough_recovers 10 p_junk_yield (by decide)⟩

/-- The identifier-class token kinds: the kinds matched by the first dispatch
arm of `ts_non_array_type`. -/
def ident_class_kinds : TokenSet :=
  [.IDENT, .VOID_KW, .YIELD_KW, .NULL_KW, .AWAIT_KW, .BREAK_KW]

/-- The primitive-type keyword texts recognized by `ts_non_array_type`. -/
def primitive_type_names : List String :=
  ["void", "null", "any", "boolean", "bigint", "never", "number", "object",
   "string", "symbol", "unknown", "undefined"]

/-- On an identifier-class current token, `ts_non_array_type` is the
kind/text double dispatch of its first arm. -/
theorem ts_non_array_type_ident_arm (fuel : Nat) (p : Parser)
    (h : p.cur = .IDENT ∨ p.cur = .VOID_KW ∨ p.cur = .YIELD_KW ∨
      p.cur = .NULL_KW ∨ p.cur = .AWAIT_KW ∨ p.cur = .BREAK_KW) :
    ts_non_array_type fuel p =
      if p.cur_src = "asserts" ∧ p.nth_at 1 .THIS_KW = true then
        ts_this_predicate p.bump_any
      else if ts_primitive_kind p.cur_src ≠ .ERROR ∧ p.nth_at 1 .DOT = false then
        .ok (some ((p.start.1).complete (p.start.2.bump_any)
              (ts_primitive_kind p.cur_src)).1)
          ((p.start.1).complete (p.start.2.bump_any)
              (ts_primitive_kind p.cur_src)).2
      else ts_type_ref fuel p none := by
  rcases h with hc|hc|hc|hc|hc|hc <;> simp only [ts_non_array_type, hc]

/-- Membership in `ident_class_kinds` as a disjunction of kinds. -/
theorem ident_class_cases (p : Parser) (h : p.cur ∈ ident_class_kinds) :
    p.cur = .IDENT ∨ p.cur = .VOID_KW ∨ p.cur = .YIELD_KW ∨
      p.cur = .NULL_KW ∨ p.cur = .AWAIT_KW ∨ p.cur = .BREAK_KW := by
  simpa [ident_class_kinds] using h

/-- An identifier-class current token is not the end-of-input marker. -/
theorem ident_class_ne_eof (p : Parser) (h : p.cur ∈ ident_class_kinds) :
    p.cur ≠ .EOF := by
  rcases ident_class_cases p h with hc|hc|hc|hc|hc|hc <;> simp [hc]

/-- A primitive-type keyword text selects a non-dummy kind and is never the
`asserts` contextual keyword. -/
theorem primitive_text_facts (p : Parser) (h : p.cur_src ∈ primitive_type_names) :
    p.cur_src ≠ "asserts" ∧ ts_primitive_kind p.cur_src ≠ .ERROR := by
  simp only [primitive_type_names, List.mem_cons, List.not_mem_nil,
    or_false] at h
  rcases h with h|h|h|h|h|h|h|h|h|h|h|h <;> rw [h] <;>
    exact ⟨by decide, by decide⟩

/-- C7: identifier-class dispatch of `ts_non_array_type`. A current token of
identifier class whose text is a primitive-type keyword, not followed by
`.`, is consumed as exactly one token into a leaf node of the corresponding
primitive kind with no new diagnostics; otherwise (non-primitive text or a
following `.`, and not the `asserts this` case) the arm falls through to the
general type-reference production. On the input `string` this yields one
`TS_STRING` leaf, zero diagnostics, cursor at end. -/
theorem claim_C7_primitive_dispatch :
    (∀ (fuel : Nat) (p : Parser),
      p.cur ∈ ident_class_kinds →
      p.cur_src ∈ primitive_type_names →
      p.nth_at 1 .DOT = false →
      ∃ cm q, ts_non_array_type fuel p = .ok (some cm) q ∧
        cm.kind = ts_primitive_kind p.cur_src ∧
        q.pos = p.pos + 1 ∧ q.errors = p.errors) ∧
    (∀ (fuel : Nat) (p : Parser),
      p.cur ∈ ident_class_kinds →
      ¬ (p.cur_src = "asserts" ∧ p.nth_at 1 .THIS_KW = true) →
      (ts_primitive_kind p.cur_src = .ERROR ∨ p.nth_at 1 .DOT = true) →
      ts_non_array_type fuel p = ts_type_ref fuel p none) ∧
    ((ts_non_array_type 1 p_string).returned = some (some ⟨0, .TS_STRING, 0, 6⟩) ∧
      (ts_non_array_type 1 p_string).state.map Parser.pos = some 1 ∧
      (ts_non_array_type 1 p_string).state.map Parser.errors = some []) := by
  refine ⟨?_, ?_, by decide, by decide, by decide⟩
  · intro fuel p h1 h2 h3
    have hfacts := primitive_text_facts p h2
    have hlt := cur_lt_length p (ident_class_ne_eof p h1)
    have hlt2 : p.start.2.pos < p.start.2.tokens.length := by
      rw [start_snd_pos, start_snd_tokens]; exact hlt
    rw [ts_non_array_type_ident_arm fuel p (ident_class_cases p h1)]
    rw [if_neg (by rintro ⟨ha, _⟩; exact hfacts.1 ha)]
    rw [if_pos ⟨hfacts.2, h3⟩]
    refine ⟨_, _, rfl, rfl, ?_, ?_⟩
    · rw [complete_snd_pos, bump_any_pos _ hlt2, start_snd_pos]
    · rw [complete_snd_errors, bump_any_errors, start_snd_errors]
  · intro fuel p h1 h2 h3
    rw [ts_non_array_type_ident_arm fuel p (ident_class_cases p h1)]
    rw [if_neg h2]
    rw [if_neg ?_]
    rintro ⟨ha, hb⟩
    rcases h3 with h|h
    · exact ha h
    · rw [h] at hb; cases hb

/-- C7 witness: the primitive-leaf part applied at the concrete input
`string`. -/
theorem claim_C7_witness :
    p_string.cur ∈ ident_class_kinds ∧
    p_string.cur_src ∈ primitive_type_names ∧
    p_string.nth_at 1 .DOT = false ∧
    ∃ cm q, ts_non_array_type 2 p_string = .ok (some cm) q ∧
      cm.kind = ts_primitive_kind p_string.cur_src ∧
      q.pos = p_string.pos + 1 ∧ q.errors = p_string.errors :=
  ⟨by decide, by decide, by decide,
   claim_C7_primitive_dispatch.1 2 p_string (by decide) (by decide) (by decide)⟩

@[simp] theorem start_snd_events (p : Parser) :
    p.start.2.events = p.events ++ [.start .TOMBSTONE none] := rfl

@[simp] theorem start_snd_cur_src (p : Parser) : p.start.2.cur_src = p.cur_src := rfl

@[simp] theorem start_fst_pos (p : Parser) : p.start.1.pos = p.events.length := rfl

theorem bump_remap_events (p : Parser) (k : SyntaxKind)
    (h : p.pos < p.tokens.length) :
    (p.bump_remap k).events = p.events ++ [.token k p.cur_src] := by
  unfold Parser.bump_remap; rw [if_pos h]

theorem complete_snd_events (m : Marker) (p : Parser) (k : SyntaxKind) :
    (m.complete p k).2.events =
      (p.events.set m.pos (.start k
        (match p.events.get? m.pos with
         | some (.start _ f) => f
         | _ => none))) ++ [.finish] := rfl

theorem get?_append_double {α : Type} (l : List α) (a b : α) :
    ((l ++ [a]) ++ [b]).get? l.length = some a := by
  induction l with
  | nil => rfl
  | cons x xs ih => simpa using ih

theorem set_append_double {α : Type} (l : List α) (a b v : α) :
    ((l ++ [a]) ++ [b]).set l.length v = (l ++ [v]) ++ [b] := by
  induction l with
  | nil => rfl
  | cons x xs ih => simp [ih]

/-- C8: `ts_type_name` accepts a plain identifier, or with
`allow_reserved = true` any keyword-class token, consuming exactly one token
remapped to the generic identifier kind with its original text preserved and
completing a `TS_TYPE_NAME` node with no new diagnostics; on any other
current token it reports "expected a TypeScript type name, but instead found
`<text>`" with the current token's text and range and recovers with the
caller-specified set or the default base set, returning no node. -/
theorem claim_C8_type_name :
    (∀ (p : Parser) (rs : Option TokenSet) (ar : Bool),
      (p.at_kind .IDENT || (p.cur.is_keyword && ar)) = true →
      ∃ cm q, ts_type_name p rs ar = (some cm, q) ∧
        cm.kind = .TS_TYPE_NAME ∧
        q.pos = p.pos + 1 ∧
        q.errors = p.errors ∧
        q.events = p.events ++
          [.start .TS_TYPE_NAME none, .token .IDENT p.cur_src, .finish]) ∧
    (∀ (p : Parser) (rs : Option TokenSet) (ar : Bool),
      (p.at_kind .IDENT || (p.cur.is_keyword && ar)) = false →
      ts_type_name p rs ar = (none,
        p.err_recover (type_name_err p) (rs.getD BASE_TS_RECOVERY_SET) false)) := by
  constructor
  · intro p rs ar h
    have hne : p.cur ≠ .EOF := by
      intro he
      simp [Parser.at_kind, he, SyntaxKind.is_keyword] at h
    have hlt := cur_lt_length p hne
    have hlt2 : p.start.2.pos < p.start.2.tokens.length := by
      rw [start_snd_pos, start_snd_tokens]; exact hlt
    unfold ts_type_name
    rw [if_pos h]
    refine ⟨_, _, rfl, rfl, ?_, ?_, ?_⟩
    · rw [complete_snd_pos, bump_remap_pos _ _ hlt2, start_snd_pos]
    · rw [complete_snd_errors, bump_remap_errors, start_snd_errors]
    · rw [complete_snd_events, bump_remap_events _ _ hlt2, start_snd_events,
        start_snd_cur_src, start_fst_pos]
      simp only [get?_append_double, set_append_double]
      simp [List.append_assoc]
  · intro p rs ar h
    exact ts_type_name_fail p rs ar h

/-- C8 witness: the success part at the concrete identifier input `string`
and the failure part at the concrete keyword input `yield` with
`allow_reserved = false`. -/
theorem claim_C8_witness :
    ((p_string.at_kind .IDENT || (p_string.cur.is_keyword && true)) = true ∧
      ∃ cm q, ts_type_name p_string none true = (some cm, q) ∧
        cm.kind = .TS_TYPE_NAME ∧
        q.pos = p_string.pos + 1 ∧
        q.errors = p_string.errors ∧
        q.events = p_string.events ++
          [.start .TS_TYPE_NAME none, .token .IDENT p_string.cur_src, .finish]) ∧
    ((p_yield.at_kind .IDENT || (p_yield.cur.is_keyword && false)) = false ∧
      ts_type_name p_yield none false = (none,
        p_yield.err_recover (type_name_err p_yield) BASE_TS_RECOVERY_SET false)) :=
  ⟨⟨by decide, claim_C8_type_name.1 p_string none true (by decide)⟩,
   ⟨by decide, claim_C8_type_name.2 p_yield none false (by decide)⟩⟩

@[simp] theorem start_snd_nth (p : Parser) (n : Nat) :
    p.start.2.nth n = p.nth n := rfl

@[simp] theorem start_snd_nth_src (p : Parser) (n : Nat) :
    p.start.2.nth_src n = p.nth_src n := rfl

theorem expect_fail_snd (x : Parser) (k : SyntaxKind) (h : x.at_kind k = false) :
    (x.expect k).2 = x.error (expect_err x k) := by
  unfold Parser.expect; rw [if_neg (by simp [h])]

/-- On a `-` current token, `ts_non_array_type` is its unary-minus literal
arm. -/
theorem ts_non_array_type_minus_arm (fuel : Nat) (p : Parser)
    (hc : p.cur = .MINUS) :
    ts_non_array_type fuel p =
      if (p.start.2.bump_any).at_kind .NUMBER then
        .ok (some ((p.start.1).complete
              ((((p.start.2.bump_any).start.1).complete
                ((p.start.2.bump_any).start.2.bump_any) .LITERAL).2) .TS_LITERAL).1)
          ((p.start.1).complete
              ((((p.start.2.bump_any).start.1).complete
                ((p.start.2.bump_any).start.2.bump_any) .LITERAL).2) .TS_LITERAL).2
      else
        .ok (some ((p.start.1).complete
              ((p.start.2.bump_any).expect .NUMBER).2 .TS_LITERAL).1)
          ((p.start.1).complete
              ((p.start.2.bump_any).expect .NUMBER).2 .TS_LITERAL).2 := by
  simp only [ts_non_array_type, hc]

/-- C9: on every parser state whose current token is `-`, the production
consumes the `-`; when a numeric literal follows it is consumed and wrapped
as a `LITERAL` node with no diagnostic, otherwise an "expected NUMBER"
diagnostic is reported; in both cases the production completes and returns a
`TS_LITERAL` wrapping node. On the input `-5` this yields a literal-type
node wrapping the numeric literal after the unary minus, with zero
diagnostics. -/
theorem claim_C9_unary_minus :
    (∀ (fuel : Nat) (p : Parser), p.cur = .MINUS → p.nth 1 = .NUMBER →
      ∃ cm q, ts_non_array_type fuel p = .ok (some cm) q ∧
        cm.kind = .TS_LITERAL ∧ q.pos = p.pos + 2 ∧ q.errors = p.errors) ∧
    (∀ (fuel : Nat) (p : Parser), p.cur = .MINUS → p.nth 1 ≠ .NUMBER →
      ∃ cm q d, ts_non_array_type fuel p = .ok (some cm) q ∧
        cm.kind = .TS_LITERAL ∧ q.pos = p.pos + 1 ∧
        q.errors = p.errors ++ [d] ∧
        d.message = "expected `NUMBER` but instead found `" ++ p.nth_src 1 ++ "`") ∧
    ((ts_non_array_type 1 p_minus5).returned = some (some ⟨0, .TS_LITERAL, 0, 2⟩) ∧
      (ts_non_array_type 1 p_minus5).state.map Parser.errors = some [] ∧
      (ts_non_array_type 1 p_minus5).state.map Parser.events =
        some [.start .TS_LITERAL none, .token .MINUS "-", .start .LITERAL none,
              .token .NUMBER "5", .finish, .finish]) := by
  refine ⟨?_, ?_, by decide, by decide, by decide⟩
  · intro fuel p hc hn
    have hlt := cur_lt_length p (by rw [hc]; intro h; cases h)
    have hlt2 : p.start.2.pos < p.start.2.tokens.length := by
      rw [start_snd_pos, start_snd_tokens]; exact hlt
    have hp2cur : (p.start.2.bump_any).cur = p.nth 1 := by
      rw [bump_any_cur _ hlt2, start_snd_nth]
    have hat : (p.start.2.bump_any).at_kind .NUMBER = true := by
      simp [Parser.at_kind, hp2cur, hn]
    have hlt3 : (p.start.2.bump_any).start.2.pos <
        (p.start.2.bump_any).start.2.tokens.length := by
      rw [start_snd_pos, start_snd_tokens, bump_any_tokens,
        bump_any_pos _ hlt2, start_snd_pos, start_snd_tokens]
      exact nth_ne_eof_lt p 1 (by rw [hn]; intro h; cases h)
    rw [ts_non_array_type_minus_arm fuel p hc]
    rw [if_pos hat]
    refine ⟨_, _, rfl, rfl, ?_, ?_⟩
    · rw [complete_snd_pos, complete_snd_pos, bump_any_pos _ hlt3,
        start_snd_pos, bump_any_pos _ hlt2, start_snd_pos]
    · rw [complete_snd_errors, complete_snd_errors, bump_any_errors,
        start_snd_errors, bump_any_errors, start_snd_errors]
  · intro fuel p hc hn
    have hlt := cur_lt_length p (by rw [hc]; intro h; cases h)
    have hlt2 : p.start.2.pos < p.start.2.tokens.length := by
      rw [start_snd_pos, start_snd_tokens]; exact hlt
    have hp2cur : (p.start.2.bump_any).cur = p.nth 1 := by
      rw [bump_any_cur _ hlt2, start_snd_nth]
    have hat : (p.start.2.bump_any).at_kind .NUMBER = false := by
      simp [Parser.at_kind, hp2cur, hn]
    rw [ts_non_array_type_minus_arm fuel p hc]
    rw [if_neg (by simp [hat])]
    rw [expect_fail_snd _ _ hat]
    refine ⟨_, _, expect_err (p.start.2.bump_any) .NUMBER, rfl, rfl, ?_, ?_, ?_⟩
    · rw [complete_snd_pos, error_pos, bump_any_pos _ hlt2, start_snd_pos]
    · rw [complete_snd_errors, error_errors, bump_any_errors, start_snd_errors]
    · show "expected `" ++ kind_text .NUMBER ++ "` but instead found `" ++
        (p.start.2.bump_any).cur_src ++ "`" = _
      rw [bump_any_cur_src _ hlt2, start_snd_nth_src]
      rfl

/-- C9 witness: the with-number part at the concrete input `-5` and the
missing-number part at a lone `-`. -/
theorem claim_C9_witness :
    (p_minus5.cur = .MINUS ∧ p_minus5.nth 1 = .NUMBER ∧
      ∃ cm q, ts_non_array_type 3 p_minus5 = .ok (some cm) q ∧
        cm.kind = .TS_LITERAL ∧ q.pos = p_minus5.pos + 2 ∧
        q.errors = p_minus5.errors) ∧
    ((initial_state [⟨.MINUS, "-", 0, 1, false⟩]).cur = .MINUS ∧
      ∃ cm q d, ts_non_array_type 3 (initial_state [⟨.MINUS, "-", 0, 1, false⟩]) =
          .ok (some cm) q ∧
        cm.kind = .TS_LITERAL ∧
        q.pos = (initial_state [⟨.MINUS, "-", 0, 1, false⟩]).pos + 1 ∧
        q.errors = (initial_state [⟨.MINUS, "-", 0, 1, false⟩]).errors ++ [d] ∧
        d.message = "expected `NUMBER` but instead found `" ++
          (initial_state [⟨.MINUS, "-", 0, 1, false⟩]).nth_src 1 ++ "`") :=
  ⟨⟨by decide, by decide,
    claim_C9_unary_minus.1 3 p_minus5 (by decide) (by decide)⟩,
   ⟨by decide,
    claim_C9_unary_minus.2.1 3 (initial_state [⟨.MINUS, "-", 0, 1, false⟩])
      (by decide) (by decide)⟩⟩

/-- C10: `ts_entity_name` parses its first segment by calling `ts_type_name`
with `allow_reserved` hard-coded to `false`, whatever `allow_reserved` value
it was itself given; hence on a reserved-keyword current token it reports
"expected a TypeScript type name", recovers, and returns no node even when
called with `allow_reserved = true` — only segments after a `.` see the
caller's flag. -/
theorem claim_C10_first_segment_never_reserved (fuel : Nat) (p : Parser)
    (rs : Option TokenSet) (ar : Bool) (h : p.cur.is_keyword = true) :
    ts_entity_name fuel p rs ar = .ok none
      (p.err_recover (type_name_err p) (rs.getD BASE_TS_RECOVERY_SET) false) := by
  have hni : p.cur ≠ .IDENT := by
    intro he; rw [he] at h; simp [SyntaxKind.is_keyword] at h
  have hcond : (p.at_kind .IDENT || (p.cur.is_keyword && false)) = false := by
    simp [Parser.at_kind, hni]
  unfold ts_entity_name
  rw [ts_type_name_fail p rs false hcond]

/-- C10 witness: `ts_entity_name` called with `allow_reserved = true` on the
reserved keyword `yield` still fails its first segment. -/
theorem claim_C10_witness :
    p_yield.cur.is_keyword = true ∧
    ts_entity_name 1 p_yield none true = .ok none
      (p_yield.err_recover (type_name_err p_yield) BASE_TS_RECOVERY_SET false) :=
  ⟨by decide,
   claim_C10_first_segment_never_reserved 1 p_yield none true (by decide)⟩

/-- Token stream for the input `asserts this`: an identifier-class token
whose text is not a primitive-type keyword, followed by `this`. -/
def p_asserts_this : Parser := initial_state
  [⟨.IDENT, "asserts", 0, 7, false⟩, ⟨.THIS_KW, "this", 8, 12, false⟩]

/-- C7 counterexample: the claim's "otherwise it falls through to the
general type-reference production" is false. The state `asserts this` is
identifier-class with a non-primitive text — inside the claim's "otherwise"
region — yet `ts_non_array_type` does not fall through to `ts_type_ref`:
the dispatch consumes `asserts` and delegates to the this-predicate
production, returning a `TS_PREDICATE` node where `ts_type_ref` would
return a `TS_TYPE_REF` node. -/
theorem claim_C7_otherwise_counterexample :
    p_asserts_this.cur ∈ ident_class_kinds ∧
    p_asserts_this.cur_src ∉ primitive_type_names ∧
    ts_non_array_type 10 p_asserts_this ≠ ts_type_ref 10 p_asserts_this none ∧
    (ts_non_array_type 10 p_asserts_this).returned.map
      (Option.map CompletedMarker.kind) = some (some .TS_PREDICATE) ∧
    (ts_type_ref 10 p_asserts_this none).returned.map
      (Option.map CompletedMarker.kind) = some (some .TS_TYPE_REF) :=
  ⟨by decide, by decide, by decide, by decide, by decide⟩
